import Mathlib

/-!
Shallow embedding of `mung/torch_ext/optim.py` (the `Adagrad` optimizer) and of
the data-preparation fragment of `mung/config/torch_ext/learn.py`
(`train_from_config`).

Tensors are modelled as functions `Fin n → ℝ` over flattened coordinates,
together with a `shape : List Nat` used only by the shape-based L1 dispatch
(the code reads `p.data.size()` for dispatch and the elements for arithmetic).
Float arithmetic is modelled over ℝ; `torch.sqrt` is `Real.sqrt`,
`torch.sign` is `Real.sign`, the `1e-10` epsilon is the real `1e-10`.
-/

open scoped Classical

namespace Mung

/-- A gradient tensor: dense, or sparse as a list of (flattened index, value)
entries, possibly with duplicate indices (an uncoalesced torch sparse tensor). -/
inductive Grad (n : Nat) where
  | dense (g : Fin n → ℝ)
  | sparse (entries : List (Fin n × ℝ))

/-- `is_sparse` flag of the gradient tensor. -/
def Grad.isSparse {n : Nat} : Grad n → Bool
  | .dense _ => false
  | .sparse _ => true

/-- Value of the coalesced sparse tensor at coordinate `i`: the sum of the
values of all entries carrying index `i` (torch's `coalesce()` sums
duplicates). For a dense gradient this is just the entry at `i`. -/
def coalAt {n : Nat} (es : List (Fin n × ℝ)) (i : Fin n) : ℝ :=
  (es.filter (fun e => e.1 = i)).foldr (fun e a => e.2 + a) 0

/-- Membership of coordinate `i` in the sparse gradient's index set
(kept even when the summed value is zero, as torch's `coalesce` does). -/
def inSupp {n : Nat} (es : List (Fin n × ℝ)) (i : Fin n) : Bool :=
  es.any (fun e => e.1 = i)

/-- The dense tensor a gradient denotes: itself when dense, the coalesced
scatter of its entries when sparse (this is what `dense.add_(sparse)` adds). -/
def Grad.densify {n : Nat} : Grad n → (Fin n → ℝ)
  | .dense g => g
  | .sparse es => fun i => coalAt es i

/-- One parameter group's hyperparameters (`defaults` dict in `__init__`). -/
structure Hyper where
  lr : ℝ
  lr_decay : ℝ
  weight_decay : ℝ
  l1_C : ℝ

/-- The two optimizer-level shape flags (`_no_bias_l1`, `_no_non_singleton_l1`),
both defaulting to `True` in `__init__`. -/
structure Flags where
  no_bias_l1 : Bool
  no_non_singleton_l1 : Bool

/-- The constructor defaults `no_bias_l1=True, no_non_singleton_l1=True`. -/
def Flags.default : Flags := ⟨true, true⟩

/-- Per-parameter optimizer state: `state['step']`, `state['sum']`,
`state['avg']` (the all-zero `state['zeros']` tensor is implicit: it only
supplies the `0` floor of the `torch.max`). -/
structure PState (n : Nat) where
  step : Nat
  sum : Fin n → ℝ
  avg : Fin n → ℝ

/-- The all-zero state written by `reset()`. -/
def PState.init (n : Nat) : PState n := ⟨0, fun _ => 0, fun _ => 0⟩

/-- A registered parameter as the optimizer sees it inside `step()`:
its shape, its flattened data, its gradient (`None` when absent this step),
and its per-parameter state. -/
structure Entry (n : Nat) where
  shape : List Nat
  data : Fin n → ℝ
  grad : Option (Grad n)
  st : PState n

/-- Which branch of `step()` a parameter went through. -/
inductive Path where
  | skip | error | l1 | sparse | dense
  deriving DecidableEq

/-- Result of processing one parameter inside `step()`: the updated parameter
(data and state; the gradient and shape are untouched), whether the
weight-decay/sparse `RuntimeError` was raised, and the branch taken. -/
structure StepOut (n : Nat) where
  entry : Entry n
  err : Bool
  path : Path

/-- The L1 dispatch condition exactly as the source writes it (line 83),
with Python's precedence (`and` binds tighter than `or`):
`l1_C != 0 and ((not no_bias_l1) or (rank > 1 or size0 > 1) and
((not no_non_singleton_l1) or size0 == 1))`. -/
def l1CondCode (h : Hyper) (fl : Flags) (shape : List Nat) : Prop :=
  h.l1_C ≠ 0 ∧
    (¬ fl.no_bias_l1 = true ∨
      ((1 < shape.length ∨ 1 < shape.headD 0) ∧
        (¬ fl.no_non_singleton_l1 = true ∨ shape.headD 0 = 1)))

/-- The L1 dispatch condition as the spec groups it:
`((NOT no_bias_l1) OR (rank > 1 OR size0 > 1)) AND
((NOT no_non_singleton_l1) OR size0 == 1)`, conjoined with `l1_C ≠ 0`.
This follows the spec's words, for comparison against `l1CondCode`. -/
def l1CondSpec (h : Hyper) (fl : Flags) (shape : List Nat) : Prop :=
  h.l1_C ≠ 0 ∧
    ((¬ fl.no_bias_l1 = true ∨ (1 < shape.length ∨ 1 < shape.headD 0)) ∧
      (¬ fl.no_non_singleton_l1 = true ∨ shape.headD 0 = 1))

/-- The body of `step()` for one parameter after the gradient-absence check,
the step increment and the weight-decay error check (`stp` is the already
incremented `state['step']`; when `weight_decay ≠ 0` the gradient is known
dense, so matching the post-decay gradient agrees with the code's test of
`p.grad.data.is_sparse` on the original). -/
noncomputable def stepCore {n : Nat} (h : Hyper) (fl : Flags)
    (shape : List Nat) (pdata : Fin n → ℝ) (gr : Grad n)
    (stp : Nat) (sum avg : Fin n → ℝ) : Entry n × Path :=
  let grad : Grad n :=
    if h.weight_decay = 0 then gr
    else Grad.dense (fun i => gr.densify i + h.weight_decay * pdata i)
  let clr : ℝ := h.lr / (1 + ((stp - 1 : Nat) : ℝ) * h.lr_decay)
  if l1CondCode h fl shape then
    let g := grad.densify
    let avg' := fun i => avg i + g i
    let sum' := fun i => sum i + g i * g i
    let g_bar := fun i => avg' i / (stp : ℝ)
    let adapt := fun i => Real.sqrt (sum' i) + 1e-10
    let sparsity := fun i => max (|g_bar i| - h.l1_C) 0
    (⟨shape, fun i => Real.sign (-(g_bar i)) * (clr * (stp : ℝ) / adapt i) * sparsity i,
      some gr, ⟨stp, sum', avg'⟩⟩, Path.l1)
  else
    match grad with
    | .sparse es =>
      let sum' := fun i => if inSupp es i then sum i + coalAt es i * coalAt es i else sum i
      let data' := fun i =>
        if inSupp es i then
          pdata i + (-clr) * (coalAt es i / (Real.sqrt (sum' i) + 1e-10))
        else pdata i
      (⟨shape, data', some gr, ⟨stp, sum', avg⟩⟩, Path.sparse)
    | .dense g =>
      let sum' := fun i => sum i + g i * g i
      let std := fun i => Real.sqrt (sum' i) + 1e-10
      (⟨shape, fun i => pdata i + (-clr) * (g i / std i), some gr, ⟨stp, sum', avg⟩⟩,
        Path.dense)

/-- `step()` restricted to one parameter: skip when the gradient is absent;
increment `state['step']`; raise the `RuntimeError` when `weight_decay ≠ 0`
and the gradient is sparse (state already incremented, data untouched);
otherwise run the three-way dispatch. -/
noncomputable def stepParam {n : Nat} (h : Hyper) (fl : Flags) (e : Entry n) :
    StepOut n :=
  match e.grad with
  | none => ⟨e, false, Path.skip⟩
  | some gr =>
    if h.weight_decay ≠ 0 ∧ gr.isSparse = true then
      ⟨⟨e.shape, e.data, e.grad, ⟨e.st.step + 1, e.st.sum, e.st.avg⟩⟩, true, Path.error⟩
    else
      let r := stepCore h fl e.shape e.data gr (e.st.step + 1) e.st.sum e.st.avg
      ⟨r.1, false, r.2⟩

/-- The parameter loop of `step()`: parameters are processed in registration
order; the Python `raise` aborts the loop at the first failing parameter,
leaving every earlier parameter fully updated, the failing parameter's state
mutated as far as the raise point, and later parameters untouched.
Returns the resulting parameter list and whether the error was raised. -/
noncomputable def stepEntries {n : Nat} (h : Hyper) (fl : Flags) :
    List (Entry n) → List (Entry n) × Bool
  | [] => ([], false)
  | e :: rest =>
    let o := stepParam h fl e
    if o.err then (o.entry :: rest, true)
    else
      let r := stepEntries h fl rest
      (o.entry :: r.1, r.2)

/-- `reset()`: re-zero `step`, `sum` and `avg` of every registered parameter. -/
def resetEntries {n : Nat} (es : List (Entry n)) : List (Entry n) :=
  es.map (fun e => ⟨e.shape, e.data, e.grad, PState.init n⟩)

/-- `get_step()`: the `step` of the first registered parameter, or `None`
when there is none (the constructor calls `reset()`, so every registered
parameter's state dict has a `'step'` key). -/
def get_step {n : Nat} (es : List (Entry n)) : Option Nat :=
  match es with
  | [] => none
  | e :: _ => some e.st.step

/-- Top level of `step(closure)`. The closure is modelled as a state-passing
function on an external world `σ` (it recomputes the loss and may touch that
world, but not the optimizer's parameters): `loss = closure()` runs first, on
the pre-update world, exactly once; then the parameter loop runs; `loss` is
returned. Result: (returned loss, final world, (parameters, error flag)). -/
noncomputable def stepFull {n : Nat} {σ α : Type} (h : Hyper) (fl : Flags)
    (closure : Option (σ → α × σ)) (w : σ) (es : List (Entry n)) :
    Option α × σ × (List (Entry n) × Bool) :=
  match closure with
  | none => (none, w, stepEntries h fl es)
  | some f => (some (f w).1, (f w).2, stepEntries h fl es)

/-- Modelled from the spec: the Dataset collaborator (not under `src/`)
exposes shuffle-in-place and contiguous-subset *selection*; `get_subset i k`
denotes the selected contiguous subset of size `k` starting at index `i`,
leaving the dataset it is called on unchanged. -/
def get_subset {α : Type} (d : List α) (i k : Nat) : List α :=
  (d.drop i).take k

/-- Lines 17–20 of `train_from_config`: look up the dataset, and when a
`data_size` key is present, call `data.shuffle()` (in place, modelled by the
`shuffle` argument) and then `data.get_subset(0, data_size)` — whose result
the source discards. The value returned here is the dataset that is then
handed to `trainer.train`. -/
def trainFromConfigData {α : Type} (shuffle : List α → List α)
    (data : List α) (data_size : Option Nat) : List α :=
  match data_size with
  | none => data
  | some ds =>
    let data' := shuffle data
    let _subset := get_subset data' 0 ds
    data'

/-! ### Branch-reduction lemmas for `stepParam` -/

/-- A parameter with absent gradient is skipped unchanged. -/
theorem stepParam_none {n : Nat} (h : Hyper) (fl : Flags)
    (shape : List Nat) (pdata : Fin n → ℝ) (st : PState n) :
    stepParam h fl ⟨shape, pdata, none, st⟩ =
      ⟨⟨shape, pdata, none, st⟩, false, Path.skip⟩ := rfl

/-- Weight decay with a sparse gradient: the step counter is incremented and
then the `RuntimeError` is raised, leaving data, `sum` and `avg` untouched. -/
theorem stepParam_sparse_err {n : Nat} (h : Hyper) (fl : Flags)
    (shape : List Nat) (pdata : Fin n → ℝ) (es : List (Fin n × ℝ))
    (st : PState n) (hwd : h.weight_decay ≠ 0) :
    stepParam h fl ⟨shape, pdata, some (.sparse es), st⟩ =
      ⟨⟨shape, pdata, some (.sparse es), ⟨st.step + 1, st.sum, st.avg⟩⟩,
        true, Path.error⟩ := by
  simp [stepParam, Grad.isSparse, hwd]

/-- Dense gradient, no weight decay, L1 dispatch off: the plain Adagrad
update `sum += g⊙g; p += -clr ⊙ g / (√sum + 1e-10)`. -/
theorem stepParam_dense_wd0 {n : Nat} (h : Hyper) (fl : Flags)
    (shape : List Nat) (pdata : Fin n → ℝ) (g : Fin n → ℝ) (st : PState n)
    (hwd : h.weight_decay = 0) (hl1 : ¬ l1CondCode h fl shape) :
    stepParam h fl ⟨shape, pdata, some (.dense g), st⟩ =
      ⟨⟨shape,
        fun i => pdata i +
          -(h.lr / (1 + (st.step : ℝ) * h.lr_decay)) *
            (g i / (Real.sqrt (st.sum i + g i * g i) + 1e-10)),
        some (.dense g),
        ⟨st.step + 1, fun i => st.sum i + g i * g i, st.avg⟩⟩,
        false, Path.dense⟩ := by
  simp [stepParam, stepCore, Grad.isSparse, hwd, hl1]

/-- Sparse gradient, no weight decay, L1 dispatch off: only the gradient's
index set is updated, by the coalesced values. -/
theorem stepParam_sparse_wd0 {n : Nat} (h : Hyper) (fl : Flags)
    (shape : List Nat) (pdata : Fin n → ℝ) (es : List (Fin n × ℝ))
    (st : PState n) (hwd : h.weight_decay = 0) (hl1 : ¬ l1CondCode h fl shape) :
    stepParam h fl ⟨shape, pdata, some (.sparse es), st⟩ =
      ⟨⟨shape,
        fun i => if inSupp es i then
            pdata i +
              -(h.lr / (1 + (st.step : ℝ) * h.lr_decay)) *
                (coalAt es i /
                  (Real.sqrt (st.sum i + coalAt es i * coalAt es i) + 1e-10))
          else pdata i,
        some (.sparse es),
        ⟨st.step + 1,
          fun i => if inSupp es i then st.sum i + coalAt es i * coalAt es i
            else st.sum i,
          st.avg⟩⟩,
        false, Path.sparse⟩ := by
  simp only [stepParam, stepCore, Grad.isSparse, hwd, hl1]
  simp [hwd]
  funext i
  by_cases hi : inSupp es i <;> simp [hi]

/-- L1 dispatch on, no weight decay: the proximal update, replacing the
parameter value by
`sign(-g_bar) ⊙ (clr·step/adapt) ⊙ max(|g_bar| - l1_C, 0)` where the
accumulators already include the current gradient. -/
theorem stepParam_l1_wd0 {n : Nat} (h : Hyper) (fl : Flags)
    (shape : List Nat) (pdata : Fin n → ℝ) (gr : Grad n) (st : PState n)
    (hwd : h.weight_decay = 0) (hl1 : l1CondCode h fl shape) :
    stepParam h fl ⟨shape, pdata, some gr, st⟩ =
      ⟨⟨shape,
        fun i =>
          Real.sign (-((st.avg i + gr.densify i) / ((st.step + 1 : Nat) : ℝ))) *
            (h.lr / (1 + (st.step : ℝ) * h.lr_decay) * ((st.step + 1 : Nat) : ℝ) /
              (Real.sqrt (st.sum i + gr.densify i * gr.densify i) + 1e-10)) *
            max (|(st.avg i + gr.densify i) / ((st.step + 1 : Nat) : ℝ)| - h.l1_C) 0,
        some gr,
        ⟨st.step + 1,
          fun i => st.sum i + gr.densify i * gr.densify i,
          fun i => st.avg i + gr.densify i⟩⟩,
        false, Path.l1⟩ := by
  simp [stepParam, stepCore, hwd, hl1]

/-- The branch tag of `stepCore` is `l1` exactly when the source's dispatch
condition holds. -/
theorem stepCore_path_l1 {n : Nat} (h : Hyper) (fl : Flags) (shape : List Nat)
    (pdata : Fin n → ℝ) (gr : Grad n) (stp : Nat) (sum avg : Fin n → ℝ) :
    (stepCore h fl shape pdata gr stp sum avg).2 = Path.l1 ↔
      l1CondCode h fl shape := by
  by_cases hc : l1CondCode h fl shape
  · simp [stepCore, hc]
  · simp only [stepCore, if_neg hc]
    by_cases hw : h.weight_decay = 0
    · simp only [if_pos hw]
      cases gr <;> simp [hc]
    · simp [if_neg hw, hc]

/-- Claim C1, as stated (with the spec's grouping of the boolean), is false:
with `no_bias_l1 = False`, `no_non_singleton_l1 = True`, shape `[2]`,
`l1_C = 1` and a dense gradient, `step()` takes the L1 path although the
spec-grouped predicate `((NOT no_bias_l1) OR (rank>1 OR size0>1)) AND
((NOT no_non_singleton_l1) OR size0==1)` is false: Python's `and` binds
tighter than `or`, so the code computes
`(NOT no_bias_l1) OR ((rank>1 OR size0>1) AND ((NOT no_non_singleton_l1) OR size0==1))`. -/
theorem c1_counterexample :
    (stepParam ⟨1, 0, 0, 1⟩ ⟨false, true⟩
        ⟨[2], (fun _ => 0 : Fin 2 → ℝ), some (.dense fun _ => 1), PState.init 2⟩).path
        = Path.l1 ∧
      ¬ l1CondSpec ⟨1, 0, 0, 1⟩ ⟨false, true⟩ [2] := by
  constructor
  · have hl1 : l1CondCode ⟨1, 0, 0, 1⟩ ⟨false, true⟩ [2] := by
      refine ⟨by norm_num, Or.inl (by simp)⟩
    rw [stepParam_l1_wd0 ⟨1, 0, 0, 1⟩ ⟨false, true⟩ [2] (fun _ => 0)
      (.dense fun _ => 1) (PState.init 2) rfl hl1]
  · rintro ⟨-, -, hC⟩
    rcases hC with hC | hC <;> simp_all

/-- Claim C1 (amended): for every parameter with a non-absent gradient on
which the weight-decay/sparse-gradient error is not raised, `step()` takes
the L1 proximal path if and only if `l1_C ≠ 0` AND
`(NOT no_bias_l1) OR ((rank > 1 OR size0 > 1) AND
((NOT no_non_singleton_l1) OR size0 == 1))` — the code's grouping, in which
the second shape clause is nested inside the first `OR`'s right branch. -/
theorem c1_amended {n : Nat} (h : Hyper) (fl : Flags) (shape : List Nat)
    (pdata : Fin n → ℝ) (gr : Grad n) (st : PState n)
    (hns : ¬ (h.weight_decay ≠ 0 ∧ gr.isSparse = true)) :
    (stepParam h fl ⟨shape, pdata, some gr, st⟩).path = Path.l1 ↔
      l1CondCode h fl shape := by
  simp only [stepParam]
  rw [if_neg hns]
  exact stepCore_path_l1 h fl shape pdata gr (st.step + 1) st.sum st.avg

/-- Claim C1 amended theorem, applied at a concrete input: shape `[1,3]`
with the default flags and `l1_C = 1` takes the L1 path. -/
theorem c1_amended_witness :
    (stepParam ⟨1, 0, 0, 1⟩ Flags.default
        ⟨[1, 3], (fun _ => 0 : Fin 1 → ℝ), some (.dense fun _ => 1), PState.init 1⟩).path
      = Path.l1 :=
  (c1_amended ⟨1, 0, 0, 1⟩ Flags.default [1, 3] (fun _ => 0)
    (.dense fun _ => 1) (PState.init 1) (by simp [Grad.isSparse])).mpr
    ⟨by norm_num, Or.inr ⟨Or.inl (by norm_num), Or.inr rfl⟩⟩

/-- Claim C2: on the L1 proximal path with `weight_decay = 0`, `step()`
replaces the parameter elementwise by
`sign(-g_bar) ⊙ (clr · step_count / adapt) ⊙ max(|g_bar| - l1_C, 0)`, where
`g_bar` is the accumulated gradient sum (including the current gradient)
divided by `step_count` and `adapt = √sum_sq_grad + 1e-10`; in particular,
with the accumulator state fixed, the parameter's prior value is irrelevant
to its new value. -/
theorem c2_l1_update {n : Nat} (h : Hyper) (fl : Flags) (shape : List Nat)
    (pdata pdata' : Fin n → ℝ) (gr : Grad n) (st : PState n)
    (hwd : h.weight_decay = 0) (hl1 : l1CondCode h fl shape) :
    ((stepParam h fl ⟨shape, pdata, some gr, st⟩).entry.data =
      fun i =>
        Real.sign (-((st.avg i + gr.densify i) / ((st.step + 1 : Nat) : ℝ))) *
          (h.lr / (1 + (st.step : ℝ) * h.lr_decay) * ((st.step + 1 : Nat) : ℝ) /
            (Real.sqrt (st.sum i + gr.densify i * gr.densify i) + 1e-10)) *
          max (|(st.avg i + gr.densify i) / ((st.step + 1 : Nat) : ℝ)| - h.l1_C) 0) ∧
    (stepParam h fl ⟨shape, pdata', some gr, st⟩).entry.data =
      (stepParam h fl ⟨shape, pdata, some gr, st⟩).entry.data := by
  rw [stepParam_l1_wd0 h fl shape pdata gr st hwd hl1,
    stepParam_l1_wd0 h fl shape pdata' gr st hwd hl1]
  exact ⟨rfl, rfl⟩

/-- Claim C2 applied at a concrete input: shape `[1,3]`, default flags,
`lr = 1`, `l1_C = 1`, fresh state, gradient `3`: the new value is
`sign(-3) · (1·1/(√9+1e-10)) · max(|3|-1,0)` at every coordinate, for either
prior value `5` or `7`. -/
theorem c2_l1_update_witness :
    ((stepParam ⟨1, 0, 0, 1⟩ Flags.default
        ⟨[1, 3], (fun _ => 5 : Fin 1 → ℝ), some (.dense fun _ => 3),
          PState.init 1⟩).entry.data =
      fun _ => Real.sign (-((0 + 3) / ((0 + 1 : Nat) : ℝ))) *
        ((1 : ℝ) / (1 + ((0 : Nat) : ℝ) * 0) * ((0 + 1 : Nat) : ℝ) /
          (Real.sqrt (0 + 3 * 3) + 1e-10)) *
        max (|((0 : ℝ) + 3) / ((0 + 1 : Nat) : ℝ)| - 1) 0) ∧
    (stepParam ⟨1, 0, 0, 1⟩ Flags.default
        ⟨[1, 3], (fun _ => 7 : Fin 1 → ℝ), some (.dense fun _ => 3),
          PState.init 1⟩).entry.data =
      (stepParam ⟨1, 0, 0, 1⟩ Flags.default
        ⟨[1, 3], (fun _ => 5 : Fin 1 → ℝ), some (.dense fun _ => 3),
          PState.init 1⟩).entry.data :=
  c2_l1_update ⟨1, 0, 0, 1⟩ Flags.default [1, 3] (fun _ => 5) (fun _ => 7)
    (.dense fun _ => 3) (PState.init 1) rfl
    ⟨by norm_num, Or.inr ⟨Or.inl (by norm_num), Or.inr rfl⟩⟩

/-- Claim C3: when a sparse gradient's index set covers every coordinate and
its coalesced values agree with a dense gradient `g` (duplicate entries are
summed by `coalesce`), the sparse path of `step()` produces exactly the same
parameter data and `sum_sq_grad` accumulator as the dense path run on `g`
(no weight decay, L1 dispatch off; equality is exact in the real model). -/
theorem c3_sparse_dense_agree {n : Nat} (h : Hyper) (fl : Flags)
    (shape : List Nat) (pdata : Fin n → ℝ) (es : List (Fin n × ℝ))
    (g : Fin n → ℝ) (st : PState n)
    (hwd : h.weight_decay = 0) (hl1 : ¬ l1CondCode h fl shape)
    (hcover : ∀ i, inSupp es i = true) (hval : ∀ i, coalAt es i = g i) :
    (stepParam h fl ⟨shape, pdata, some (.sparse es), st⟩).entry.data =
      (stepParam h fl ⟨shape, pdata, some (.dense g), st⟩).entry.data ∧
    (stepParam h fl ⟨shape, pdata, some (.sparse es), st⟩).entry.st.sum =
      (stepParam h fl ⟨shape, pdata, some (.dense g), st⟩).entry.st.sum := by
  rw [stepParam_sparse_wd0 h fl shape pdata es st hwd hl1,
    stepParam_dense_wd0 h fl shape pdata g st hwd hl1]
  constructor <;> funext i <;> simp [hcover i, hval i]

/-- Claim C3 applied at a concrete input: the sparse gradient
`[(0, 1), (0, 1)]` over one coordinate coalesces to the dense gradient `2`
and yields the same data and accumulator as the dense step. -/
theorem c3_sparse_dense_agree_witness :
    ((stepParam ⟨1, 0, 0, 0⟩ Flags.default
        ⟨[1], (fun _ => 5 : Fin 1 → ℝ),
          some (.sparse [(0, 1), (0, 1)]), PState.init 1⟩).entry.data =
      (stepParam ⟨1, 0, 0, 0⟩ Flags.default
        ⟨[1], (fun _ => 5 : Fin 1 → ℝ),
          some (.dense fun _ => 2), PState.init 1⟩).entry.data) ∧
    ((stepParam ⟨1, 0, 0, 0⟩ Flags.default
        ⟨[1], (fun _ => 5 : Fin 1 → ℝ),
          some (.sparse [(0, 1), (0, 1)]), PState.init 1⟩).entry.st.sum =
      (stepParam ⟨1, 0, 0, 0⟩ Flags.default
        ⟨[1], (fun _ => 5 : Fin 1 → ℝ),
          some (.dense fun _ => 2), PState.init 1⟩).entry.st.sum) :=
  c3_sparse_dense_agree ⟨1, 0, 0, 0⟩ Flags.default [1] (fun _ => 5)
    [(0, 1), (0, 1)] (fun _ => 2) (PState.init 1) rfl
    (by simp [l1CondCode])
    (fun i => by fin_cases i; simp [inSupp])
    (fun i => by fin_cases i; norm_num [coalAt, List.filter])

/-- Claim C4: (first part) with `lr_decay = 0`, `weight_decay = 0`,
`l1_C = 0` and all-zero optimizer state, the first dense `step()` with
gradient `g` subtracts `lr · g / (|g| + 1e-10)` from the parameter
elementwise; (second part) the end-to-end scenario: a shape-`[3]` parameter,
`lr = 0.1`, gradient `[1,1,1]` on each of 3 steps gives
`sum_sq_grad = [3,3,3]`, `step_count = 3`, and the final value is the dense
closed form applied iteratively:
`p₀ - 0.1/(√1+1e-10) - 0.1/(√2+1e-10) - 0.1/(√3+1e-10)`. -/
theorem c4_dense_first_step_and_scenario :
    (∀ (n : Nat) (shape : List Nat) (pdata g : Fin n → ℝ) (h : Hyper)
        (fl : Flags), h.lr_decay = 0 → h.weight_decay = 0 → h.l1_C = 0 →
      (stepParam h fl ⟨shape, pdata, some (.dense g), PState.init n⟩).entry.data =
        fun i => pdata i - h.lr * g i / (|g i| + 1e-10)) ∧
    (∀ p0 : Fin 3 → ℝ,
      (stepParam ⟨0.1, 0, 0, 0⟩ Flags.default
        ((stepParam ⟨0.1, 0, 0, 0⟩ Flags.default
          ((stepParam ⟨0.1, 0, 0, 0⟩ Flags.default
            ⟨[3], p0, some (.dense fun _ => 1), PState.init 3⟩).entry)).entry)).entry.st.sum
        = (fun _ => 3) ∧
      (stepParam ⟨0.1, 0, 0, 0⟩ Flags.default
        ((stepParam ⟨0.1, 0, 0, 0⟩ Flags.default
          ((stepParam ⟨0.1, 0, 0, 0⟩ Flags.default
            ⟨[3], p0, some (.dense fun _ => 1), PState.init 3⟩).entry)).entry)).entry.st.step
        = 3 ∧
      (stepParam ⟨0.1, 0, 0, 0⟩ Flags.default
        ((stepParam ⟨0.1, 0, 0, 0⟩ Flags.default
          ((stepParam ⟨0.1, 0, 0, 0⟩ Flags.default
            ⟨[3], p0, some (.dense fun _ => 1), PState.init 3⟩).entry)).entry)).entry.data
        = fun i => p0 i - 0.1 / (Real.sqrt 1 + 1e-10) - 0.1 / (Real.sqrt 2 + 1e-10)
            - 0.1 / (Real.sqrt 3 + 1e-10)) := by
  constructor
  · intro n shape pdata g h fl hdec hwd hC
    have hl1 : ¬ l1CondCode h fl shape := by simp [l1CondCode, hC]
    rw [stepParam_dense_wd0 h fl shape pdata g (PState.init n) hwd hl1]
    funext i
    simp only [PState.init, Nat.cast_zero, zero_mul, add_zero, zero_add, hdec,
      mul_zero, div_one, Real.sqrt_mul_self_eq_abs]
    ring
  · intro p0
    have hl1 : ¬ l1CondCode ⟨0.1, 0, 0, 0⟩ Flags.default [3] := by
      simp [l1CondCode]
    rw [stepParam_dense_wd0 _ _ _ p0 _ (PState.init 3) rfl hl1,
      stepParam_dense_wd0 _ _ _ _ _ _ rfl hl1,
      stepParam_dense_wd0 _ _ _ _ _ _ rfl hl1]
    refine ⟨by funext i; norm_num [PState.init], rfl, ?_⟩
    funext i
    norm_num [PState.init]
    ring_nf

/-- Claim C4's first part applied at a concrete input: fresh state, `lr = 1`,
gradient `2` at the single coordinate of a shape-`[1]` parameter starting
at `0`. -/
theorem c4_dense_first_step_witness :
    (stepParam ⟨1, 0, 0, 0⟩ Flags.default
        ⟨[1], (fun _ => 0 : Fin 1 → ℝ), some (.dense fun _ => 2),
          PState.init 1⟩).entry.data =
      fun _ => (0 : ℝ) - 1 * 2 / (|(2 : ℝ)| + 1e-10) :=
  c4_dense_first_step_and_scenario.1 1 [1] (fun _ => 0) (fun _ => 2)
    ⟨1, 0, 0, 0⟩ Flags.default rfl rfl rfl

/-- Dense gradient with nonzero weight decay, L1 dispatch on: the proximal
update runs on the decayed gradient `g + weight_decay ⊙ p`. -/
theorem stepParam_dense_wd_l1 {n : Nat} (h : Hyper) (fl : Flags)
    (shape : List Nat) (pdata g : Fin n → ℝ) (st : PState n)
    (hwd : h.weight_decay ≠ 0) (hl1 : l1CondCode h fl shape) :
    stepParam h fl ⟨shape, pdata, some (.dense g), st⟩ =
      ⟨⟨shape,
        fun i =>
          Real.sign (-((st.avg i + (g i + h.weight_decay * pdata i)) /
              ((st.step + 1 : Nat) : ℝ))) *
            (h.lr / (1 + (st.step : ℝ) * h.lr_decay) * ((st.step + 1 : Nat) : ℝ) /
              (Real.sqrt (st.sum i +
                (g i + h.weight_decay * pdata i) * (g i + h.weight_decay * pdata i))
                + 1e-10)) *
            max (|(st.avg i + (g i + h.weight_decay * pdata i)) /
              ((st.step + 1 : Nat) : ℝ)| - h.l1_C) 0,
        some (.dense g),
        ⟨st.step + 1,
          fun i => st.sum i +
            (g i + h.weight_decay * pdata i) * (g i + h.weight_decay * pdata i),
          fun i => st.avg i + (g i + h.weight_decay * pdata i)⟩⟩,
        false, Path.l1⟩ := by
  simp [stepParam, stepCore, Grad.isSparse, Grad.densify, hwd, hl1]

/-- Dense gradient with nonzero weight decay, L1 dispatch off: the plain
dense update runs on the decayed gradient `g + weight_decay ⊙ p`. -/
theorem stepParam_dense_wd_noL1 {n : Nat} (h : Hyper) (fl : Flags)
    (shape : List Nat) (pdata g : Fin n → ℝ) (st : PState n)
    (hwd : h.weight_decay ≠ 0) (hl1 : ¬ l1CondCode h fl shape) :
    stepParam h fl ⟨shape, pdata, some (.dense g), st⟩ =
      ⟨⟨shape,
        fun i => pdata i +
          -(h.lr / (1 + (st.step : ℝ) * h.lr_decay)) *
            ((g i + h.weight_decay * pdata i) /
              (Real.sqrt (st.sum i +
                (g i + h.weight_decay * pdata i) * (g i + h.weight_decay * pdata i))
                + 1e-10)),
        some (.dense g),
        ⟨st.step + 1,
          fun i => st.sum i +
            (g i + h.weight_decay * pdata i) * (g i + h.weight_decay * pdata i),
          st.avg⟩⟩,
        false, Path.dense⟩ := by
  simp [stepParam, stepCore, Grad.isSparse, Grad.densify, hwd, hl1]

/-- Claim C5: with `weight_decay ≠ 0`, (a) `step()` raises the
`UnsupportedOperation` error for every parameter whose gradient is sparse,
whatever its shape, data or state; (b) for a dense gradient `g`, the update
performed is exactly the update of a zero-weight-decay optimizer run on the
decayed gradient `g + weight_decay ⊙ p`: the decay is folded into the
gradient before any path-specific use. -/
theorem c5_weight_decay {n : Nat} (h : Hyper) (fl : Flags)
    (hwd : h.weight_decay ≠ 0) :
    (∀ (shape : List Nat) (pdata : Fin n → ℝ) (es : List (Fin n × ℝ))
        (st : PState n),
      (stepParam h fl ⟨shape, pdata, some (.sparse es), st⟩).err = true) ∧
    (∀ (shape : List Nat) (pdata g : Fin n → ℝ) (st : PState n),
      ((stepParam h fl ⟨shape, pdata, some (.dense g), st⟩).entry.data =
        (stepParam ⟨h.lr, h.lr_decay, 0, h.l1_C⟩ fl
          ⟨shape, pdata,
            some (.dense fun i => g i + h.weight_decay * pdata i),
            st⟩).entry.data) ∧
      ((stepParam h fl ⟨shape, pdata, some (.dense g), st⟩).entry.st =
        (stepParam ⟨h.lr, h.lr_decay, 0, h.l1_C⟩ fl
          ⟨shape, pdata,
            some (.dense fun i => g i + h.weight_decay * pdata i),
            st⟩).entry.st)) := by
  constructor
  · intro shape pdata es st
    rw [stepParam_sparse_err h fl shape pdata es st hwd]
  · intro shape pdata g st
    have hl : ∀ s : List Nat, l1CondCode h fl s ↔
        l1CondCode ⟨h.lr, h.lr_decay, 0, h.l1_C⟩ fl s := by
      intro s; rfl
    by_cases hc : l1CondCode h fl shape
    · rw [stepParam_dense_wd_l1 h fl shape pdata g st hwd hc,
        stepParam_l1_wd0 ⟨h.lr, h.lr_decay, 0, h.l1_C⟩ fl shape pdata
          (.dense fun i => g i + h.weight_decay * pdata i) st rfl
          ((hl shape).mp hc)]
      exact ⟨rfl, rfl⟩
    · rw [stepParam_dense_wd_noL1 h fl shape pdata g st hwd hc,
        stepParam_dense_wd0 ⟨h.lr, h.lr_decay, 0, h.l1_C⟩ fl shape pdata
          (fun i => g i + h.weight_decay * pdata i) st rfl
          (fun hx => hc ((hl shape).mpr hx))]
      exact ⟨rfl, rfl⟩

/-- Claim C5 applied at a concrete input: `weight_decay = 1`; a sparse
gradient raises the error, and the dense-gradient update of a parameter at
`5` with gradient `2` matches the zero-decay update with gradient `2 + 1·5`. -/
theorem c5_weight_decay_witness :
    ((stepParam ⟨1, 0, 1, 0⟩ Flags.default
        ⟨[1], (fun _ => 5 : Fin 1 → ℝ), some (.sparse [(0, 2)]),
          PState.init 1⟩).err = true) ∧
    ((stepParam ⟨1, 0, 1, 0⟩ Flags.default
        ⟨[1], (fun _ => 5 : Fin 1 → ℝ), some (.dense fun _ => 2),
          PState.init 1⟩).entry.data =
      (stepParam ⟨1, 0, 0, 0⟩ Flags.default
        ⟨[1], (fun _ => 5 : Fin 1 → ℝ),
          some (.dense fun _ => 2 + 1 * 5), PState.init 1⟩).entry.data) :=
  ⟨(c5_weight_decay ⟨1, 0, 1, 0⟩ Flags.default (by norm_num)).1
      [1] (fun _ => 5) [(0, 2)] (PState.init 1),
    ((c5_weight_decay ⟨1, 0, 1, 0⟩ Flags.default (by norm_num)).2
      [1] (fun _ => 5) (fun _ => 2) (PState.init 1)).1⟩

/-- Claim C6: on the sparse path, every coordinate outside the gradient's
index set keeps both its parameter value and its `sum_sq_grad` accumulator
unchanged: only the gradient's index set is touched by `step()`. -/
theorem c6_sparse_frame {n : Nat} (h : Hyper) (fl : Flags)
    (shape : List Nat) (pdata : Fin n → ℝ) (es : List (Fin n × ℝ))
    (st : PState n) (hwd : h.weight_decay = 0) (hl1 : ¬ l1CondCode h fl shape)
    (i : Fin n) (hi : inSupp es i = false) :
    (stepParam h fl ⟨shape, pdata, some (.sparse es), st⟩).entry.data i
        = pdata i ∧
    (stepParam h fl ⟨shape, pdata, some (.sparse es), st⟩).entry.st.sum i
        = st.sum i := by
  rw [stepParam_sparse_wd0 h fl shape pdata es st hwd hl1]
  simp [hi]

/-- Claim C6 applied at a concrete input: a sparse gradient touching only
coordinate `0` of a 2-coordinate parameter leaves coordinate `1`'s value and
accumulator unchanged. -/
theorem c6_sparse_frame_witness :
    (stepParam ⟨1, 0, 0, 0⟩ Flags.default
        ⟨[2], (fun _ => 5 : Fin 2 → ℝ), some (.sparse [(0, 4)]),
          PState.init 2⟩).entry.data 1 = 5 ∧
    (stepParam ⟨1, 0, 0, 0⟩ Flags.default
        ⟨[2], (fun _ => 5 : Fin 2 → ℝ), some (.sparse [(0, 4)]),
          PState.init 2⟩).entry.st.sum 1 = 0 :=
  c6_sparse_frame ⟨1, 0, 0, 0⟩ Flags.default [2] (fun _ => 5) [(0, 4)]
    (PState.init 2) rfl (by simp [l1CondCode]) 1 (by simp [inSupp])

/-! ### Step counting: `reset`, `get_step`, repeated `step()` calls -/

/-- What the training loop may do to a parameter between two `step()` calls:
recompute its gradient (to any non-absent value); its shape, data and
optimizer state are not touched by the loop itself. -/
def Regrade {n : Nat} (a b : Entry n) : Prop :=
  b.shape = a.shape ∧ b.data = a.data ∧ b.st = a.st ∧ ∃ g, b.grad = some g

/-- `ReachesAfter h fl N es es'` : starting from parameter list `es`, after
exactly `N` calls of `step()` — each preceded by a gradient recomputation
giving every registered parameter a non-absent gradient — the optimizer's
parameter list is `es'`. -/
inductive ReachesAfter (h : Hyper) (fl : Flags) {n : Nat} :
    Nat → List (Entry n) → List (Entry n) → Prop where
  | zero (es : List (Entry n)) : ReachesAfter h fl 0 es es
  | succ {N : Nat} {es es₁ es₂ : List (Entry n)} :
      ReachesAfter h fl N es es₁ → List.Forall₂ Regrade es₁ es₂ →
      ReachesAfter h fl (N + 1) es (stepEntries h fl es₂).1

/-- Processing a parameter with a non-absent gradient increments its step
counter by exactly one, for every hyperparameter configuration: line 75
(`state['step'] += 1`) runs before the weight-decay/sparse raise, so the
increment survives even the error. -/
theorem stepParam_step_incr {n : Nat} (h : Hyper) (fl : Flags) (e : Entry n)
    (gr : Grad n) (hg : e.grad = some gr) :
    (stepParam h fl e).entry.st.step = e.st.step + 1 := by
  obtain ⟨sh, d, g, st⟩ := e
  cases hg
  simp only [stepParam]
  by_cases hs : h.weight_decay ≠ 0 ∧ gr.isSparse = true
  · rw [if_pos hs]
  · rw [if_neg hs]
    by_cases hc : l1CondCode h fl sh
    · simp [stepCore, hc]
    · by_cases hw : h.weight_decay = 0
      · cases gr <;> simp [stepCore, hc, hw]
      · simp [stepCore, hc, hw]

/-- Whether or not the loop raises, the first parameter has already been
processed, so `get_step` after one `step()` call reads the first
parameter's updated counter. -/
theorem stepEntries_get_step {n : Nat} (h : Hyper) (fl : Flags)
    (e : Entry n) (t : List (Entry n)) :
    get_step ((stepEntries h fl (e :: t)).1) =
      some ((stepParam h fl e).entry.st.step) := by
  simp only [stepEntries]
  by_cases he : (stepParam h fl e).err <;> simp [he, get_step]

/-- After `N` `step()` calls — errors allowed, any weight decay — in which
every registered parameter has a non-absent gradient, the first registered
parameter's step counter has grown by exactly `N`. -/
theorem reaches_get_step {n : Nat} (h : Hyper) (fl : Flags) {N : Nat}
    {es es' : List (Entry n)} (hr : ReachesAfter h fl N es es') {m : Nat}
    (hm : get_step es = some m) : get_step es' = some (m + N) := by
  induction hr with
  | zero es => simpa using hm
  | succ hprev hf ih =>
    have h1 := ih hm
    cases hf with
    | nil => simp [get_step] at h1
    | cons hab htail =>
      obtain ⟨-, -, hst, g, hg⟩ := hab
      have ha := Option.some_injective _ h1
      rw [stepEntries_get_step, stepParam_step_incr _ _ _ g hg, hst, ha]
      rfl

/-- Claim C7, as stated, is false on the code: `reset()` (which the
constructor itself calls) initializes every registered parameter's state
with `step = 0`, so before any `step()` call `get_step()` returns `0`, not
the null value the claim requires when no parameter has been stepped yet. -/
theorem c7_counterexample :
    get_step (resetEntries
        [(⟨[1], fun _ => 0, none, PState.init 1⟩ : Entry 1)]) = some 0 ∧
      some 0 ≠ (none : Option Nat) :=
  ⟨rfl, by simp⟩

/-- Claim C7 (amended): `get_step()` returns the step counter of the first
registered parameter and returns the null value only when no parameter is
registered; `reset()` followed by `get_step()` returns `0` (not null); and
after exactly `N` `step()` calls in which every registered parameter has a
non-absent gradient, `get_step()` returns `N` — for any hyperparameters,
even when calls raise the weight-decay/sparse error, since the step counter
is incremented before the raise. -/
theorem c7_get_step {n : Nat} (h : Hyper) (fl : Flags) (N : Nat)
    (es es' : List (Entry n)) (hne : es ≠ [])
    (hr : ReachesAfter h fl N (resetEntries es) es') :
    get_step ([] : List (Entry n)) = none ∧
    get_step (resetEntries es) = some 0 ∧
    get_step es' = some N := by
  obtain ⟨e, t, rfl⟩ := List.exists_cons_of_ne_nil hne
  have h0 : get_step (resetEntries (e :: t)) = some 0 := rfl
  exact ⟨rfl, h0, by simpa using reaches_get_step h fl hr h0⟩

/-- Claim C7 amended theorem applied at a concrete input with
`weight_decay = 1` and a sparse gradient: the single `step()` call raises
the error, yet `get_step()` still returns `1` afterwards. -/
theorem c7_get_step_witness :
    get_step ((stepEntries ⟨1, 0, 1, 0⟩ Flags.default
      (resetEntries [(⟨[1], fun _ => 0, some (.sparse [(0, 2)]),
        PState.init 1⟩ : Entry 1)])).1) = some 1 :=
  (c7_get_step ⟨1, 0, 1, 0⟩ Flags.default 1
    [(⟨[1], fun _ => 0, some (.sparse [(0, 2)]), PState.init 1⟩ : Entry 1)]
    ((stepEntries ⟨1, 0, 1, 0⟩ Flags.default
      (resetEntries [(⟨[1], fun _ => 0, some (.sparse [(0, 2)]),
        PState.init 1⟩ : Entry 1)])).1)
    (by simp)
    (ReachesAfter.succ
      (ReachesAfter.zero (resetEntries
        [(⟨[1], fun _ => 0, some (.sparse [(0, 2)]), PState.init 1⟩ : Entry 1)]))
      (List.Forall₂.cons (show Regrade _ _ from ⟨rfl, rfl, rfl, _, rfl⟩)
        List.Forall₂.nil))).2.2

/-- Claim C8 is a bug in the code: on a 200-example dataset with
`data_size = 50`, the dataset handed to the trainer still has 200 examples.
`train_from_config` calls `data.get_subset(0, 50)` but discards its result,
so the shuffled dataset is never truncated (here the shuffle is the
identity permutation). -/
theorem c8_data_size_failing :
    (trainFromConfigData id (List.range 200) (some 50)).length = 200 := by
  simp [trainFromConfigData]

/-- Claim C9: if a closure is supplied to `step()`, it is applied exactly
once, to the pre-update external world, and its value is returned as the
loss; with no closure the loss is the null value and the world is untouched;
in both cases the parameter updates are those of the closure-free loop. -/
theorem c9_closure {n : Nat} {σ α : Type} (h : Hyper) (fl : Flags) :
    (∀ (f : σ → α × σ) (w : σ) (es : List (Entry n)),
      stepFull h fl (some f) w es = (some (f w).1, (f w).2, stepEntries h fl es)) ∧
    (∀ (w : σ) (es : List (Entry n)),
      stepFull h fl (none : Option (σ → α × σ)) w es =
        (none, w, stepEntries h fl es)) ∧
    (∀ (cl : Option (σ → α × σ)) (w : σ) (es : List (Entry n)),
      (stepFull h fl cl w es).2.2 = stepEntries h fl es) := by
  refine ⟨fun f w es => rfl, fun w es => rfl, fun cl w es => ?_⟩
  cases cl <;> rfl

/-- Claim C10: the weight-decay-with-sparse-gradient failure of `step()` is
not atomic: with `weight_decay ≠ 0`, a first parameter with a dense gradient
and a second with a sparse gradient, the error leaves the first parameter
fully updated, the second with its step counter already incremented (data
and accumulators untouched), and later parameters unvisited. -/
theorem c10_error_not_atomic {n : Nat} (h : Hyper) (fl : Flags)
    (e1 e2 : Entry n) (rest : List (Entry n)) (g1 : Fin n → ℝ)
    (es2 : List (Fin n × ℝ)) (hwd : h.weight_decay ≠ 0)
    (hg1 : e1.grad = some (.dense g1)) (hg2 : e2.grad = some (.sparse es2)) :
    stepEntries h fl (e1 :: e2 :: rest) =
      ((stepParam h fl e1).entry ::
        (⟨e2.shape, e2.data, e2.grad,
          ⟨e2.st.step + 1, e2.st.sum, e2.st.avg⟩⟩ : Entry n) :: rest,
       true) := by
  obtain ⟨sh1, d1, gr1, st1⟩ := e1
  cases hg1
  obtain ⟨sh2, d2, gr2, st2⟩ := e2
  cases hg2
  have herr1 : (stepParam h fl ⟨sh1, d1, some (.dense g1), st1⟩).err = false := by
    simp only [stepParam, Grad.isSparse]
    rw [if_neg (by simp)]
  have herr2 := stepParam_sparse_err h fl sh2 d2 es2 st2 hwd
  simp only [stepEntries, herr1, Bool.false_eq_true, if_false, herr2, if_true]

/-- Claim C10 applied at a concrete input: `weight_decay = 1`, a dense-grad
parameter followed by a sparse-grad parameter and one unvisited parameter. -/
theorem c10_error_not_atomic_witness :
    stepEntries ⟨1, 0, 1, 0⟩ Flags.default
        [(⟨[1], fun _ => 5, some (.dense fun _ => 2), PState.init 1⟩ : Entry 1),
          ⟨[1], fun _ => 6, some (.sparse [(0, 3)]), PState.init 1⟩,
          ⟨[1], fun _ => 7, some (.dense fun _ => 4), PState.init 1⟩] =
      ((stepParam ⟨1, 0, 1, 0⟩ Flags.default
          ⟨[1], fun _ => 5, some (.dense fun _ => 2), PState.init 1⟩).entry ::
        (⟨[1], fun _ => 6, some (.sparse [(0, 3)]),
          ⟨0 + 1, fun _ => 0, fun _ => 0⟩⟩ : Entry 1) ::
        [⟨[1], fun _ => 7, some (.dense fun _ => 4), PState.init 1⟩],
       true) :=
  c10_error_not_atomic ⟨1, 0, 1, 0⟩ Flags.default
    ⟨[1], fun _ => 5, some (.dense fun _ => 2), PState.init 1⟩
    ⟨[1], fun _ => 6, some (.sparse [(0, 3)]), PState.init 1⟩
    [⟨[1], fun _ => 7, some (.dense fun _ => 4), PState.init 1⟩]
    (fun _ => 2) [(0, 3)] (by norm_num) rfl rfl

end Mung
